import Mathlib

/-!
Verification of the seat-booking core of `src/app.py` (a Streamlit form over
two Google-Sheets worksheets, `Seats` and `Whitelist`).

The worksheets are modelled as in-memory lists of rows; every sheet read is
modelled as a fresh read of that list and every `batch_update` /
`update_cell` call as a pure update of it.  The Streamlit display cache
(`st.cache_data`) is not modelled: reads see the current store, which is the
behaviour the code itself relies on wherever it matters (it clears the cache
with `get_seats_fresh` before every claim decision).  Store-level I/O
failures (the `except` branches around `batch_update`) are out of scope.

Python strings are modelled as Lean `String`; `str.strip()` is `pyStrip`,
`str.lower()` is `pyLower`, the `in` substring test is `strContains`, and
the `int(...)` builtin is `pyInt`, which returns `none` where Python would
raise `ValueError`.
-/

/-- Whitespace recognised by Python's `str.strip()` (ASCII part, which is all
the worksheets can contain in the modelled fields). -/
def isSpaceChar (c : Char) : Bool :=
  c == ' ' || c == '\t' || c == '\n' || c == '\r'

/-- Python `str.strip()`: drop leading and trailing whitespace. -/
def pyStrip (s : String) : String :=
  String.mk (((s.data.dropWhile isSpaceChar).reverse.dropWhile isSpaceChar).reverse)

/-- Python `str.lower()` (ASCII case folding). -/
def pyLower (s : String) : String :=
  String.mk (s.data.map Char.toLower)

/-- Characters kept by `re.sub(r"[^a-z0-9]", "", ...)` in `normalize_name`. -/
def isLowerAlnum (c : Char) : Bool :=
  (97 ≤ c.toNat && c.toNat ≤ 122) || (48 ≤ c.toNat && c.toNat ≤ 57)

/-- app.py 83-85, `normalize_name`: lowercase, then drop every character that
is not a lowercase letter or digit. -/
def normalize_name (x : String) : String :=
  String.mk ((x.data.map Char.toLower).filter isLowerAlnum)

/-- Helper for `strContains`: the first list starts the second. -/
def leadsWith : List Char → List Char → Bool
  | [], _ => true
  | _ :: _, [] => false
  | c :: cs, d :: ds => c == d && leadsWith cs ds

/-- Helper for `strContains`: the first list occurs inside the second. -/
def containsSeq : List Char → List Char → Bool
  | small, [] => small.isEmpty
  | small, b :: bs => leadsWith small (b :: bs) || containsSeq small bs

/-- Python's `small in big` substring test. -/
def strContains (big small : String) : Bool :=
  containsSeq small.data big.data

/-- Helper for `pySplitSlash`: split a character list on `/`. -/
def splitSlash : List Char → List (List Char)
  | [] => [[]]
  | c :: rest =>
    match splitSlash rest, c == '/' with
    | r, true => [] :: r
    | [], false => [[c]]
    | g :: gs, false => (c :: g) :: gs

/-- Python `str.split("/")` as used on whitelist name cells (app.py 158). -/
def pySplitSlash (s : String) : List String :=
  (splitSlash s.data).map String.mk

/-- Decimal digit test for `pyInt`. -/
def isDigitChar (c : Char) : Bool :=
  48 ≤ c.toNat && c.toNat ≤ 57

/-- Helper for `pyInt`: parse a non-empty all-digit character list. -/
def parseDigits (cs : List Char) : Option Nat :=
  if cs.isEmpty then none
  else cs.foldl
    (fun acc c =>
      match acc, isDigitChar c with
      | some n, true => some (n * 10 + (c.toNat - 48))
      | _, _ => none)
    (some 0)

/-- Python `int(s)` on a string: optional sign and decimal digits after
stripping whitespace; `none` models the `ValueError` raised otherwise. -/
def pyInt (s : String) : Option Int :=
  match (pyStrip s).data with
  | '-' :: cs => (parseDigits cs).map (fun n => -(n : Int))
  | '+' :: cs => (parseDigits cs).map (fun n => (n : Int))
  | cs => (parseDigits cs).map (fun n => (n : Int))

/-- The numeric-cell parse expression used throughout app.py (lines 170-171,
263, 270, 409-410, 649-650, 703-704, 754, 783):
`int(str(cell).strip() or "0")`.  The `or "0"` fallback fires only when the
stripped cell is empty; `none` models an uncaught `ValueError`. -/
def parse_ticket_field (s : String) : Option Int :=
  let t := pyStrip s
  pyInt (if t = "" then "0" else t)

/-- A data row of the `Seats` worksheet.  Column letters from the writes in
app.py: Status is column E, ReservedBy column F, PhoneNo column G; SeatID is
the row key.  The layout columns (Section, Row, Col) are never read or
written by the operations modelled here and are omitted. -/
structure SeatRow where
  seatID : String
  status : String
  reservedBy : String
  phoneNo : String
deriving DecidableEq

/-- A seat record as produced by `get_seats`: the dictionary after the status
recomputation, plus the `_row` sheet index (named `sheetRow`). -/
structure SeatRec where
  seatID : String
  status : String
  reservedBy : String
  phoneNo : String
  sheetRow : Nat
deriving DecidableEq

/-- One iteration of the `get_seats` loop (app.py 91-100): trim the holder
fields, and overwrite the stored `Status` literal with "available" when both
holder fields are empty, with "reserved" when the stored literal (trimmed,
lowercased) is not "reserved", and keep the stored literal otherwise. -/
def mkSeatRec (r : SeatRow) (i : Nat) : SeatRec :=
  let reserved_by := pyStrip r.reservedBy
  let phone := pyStrip r.phoneNo
  let status := pyLower (pyStrip r.status)
  if reserved_by = "" ∧ phone = "" then
    ⟨r.seatID, "available", r.reservedBy, r.phoneNo, i⟩
  else if status ≠ "reserved" then
    ⟨r.seatID, "reserved", r.reservedBy, r.phoneNo, i⟩
  else
    ⟨r.seatID, r.status, r.reservedBy, r.phoneNo, i⟩

/-- The `enumerate(rows, start=2)` loop body of `get_seats`. -/
def seatsToRecs : Nat → List SeatRow → List SeatRec
  | _, [] => []
  | i, r :: rest => mkSeatRec r i :: seatsToRecs (i + 1) rest

/-- app.py 87-101, `get_seats`: read every seat row and recompute its
effective status; rows are numbered from 2 (row 1 is the header). -/
def get_seats (store : List SeatRow) : List SeatRec :=
  seatsToRecs 2 store

/-- The `seats_ws.batch_update` of app.py 123-127: write
`status="reserved", reservedBy=name, phoneNo=phone` into the store row with
sheet index `i + 2` (a write past the end of the store is a no-op here; the
row index always comes from `get_seats`, so it is in range). -/
def writeSeatAt (store : List SeatRow) (i : Nat) (name phone : String) : List SeatRow :=
  match store.get? i with
  | none => store
  | some r => store.set i ⟨r.seatID, "reserved", name, phone⟩

/-- app.py 108-131, `update_seat_atomic`: look the seat up in the passed-in
`fresh_seats` snapshot by raw `SeatID` equality; refuse when missing or when
its effective status (trimmed, lowercased) is neither empty nor "available";
otherwise write the reservation to the store and report success. -/
def update_seat_atomic (seat_id name phone : String) (fresh_seats : List SeatRec)
    (store : List SeatRow) : Bool × List SeatRow :=
  match fresh_seats.find? (fun s => s.seatID == seat_id) with
  | none => (false, store)
  | some seat =>
    let current_status := pyLower (pyStrip seat.status)
    if current_status = "" ∨ current_status = "available" then
      (true, writeSeatAt store (seat.sheetRow - 2) name phone)
    else (false, store)

/-- Proof-side generalisation of `update_seat_atomic` applied to a fresh
read: the seat list is enumerated from an arbitrary `start` instead of the
fixed 2, so that the induction can peel rows off the store.  At `start = 2`
this is exactly `update_seat_atomic ... (get_seats store) store`. -/
def claimAux (seat_id name phone : String) (start : Nat) (store : List SeatRow) :
    Bool × List SeatRow :=
  match (seatsToRecs start store).find? (fun s => s.seatID == seat_id) with
  | none => (false, store)
  | some seat =>
    if pyLower (pyStrip seat.status) = "" ∨ pyLower (pyStrip seat.status) = "available" then
      (true, writeSeatAt store (seat.sheetRow - start) name phone)
    else (false, store)

/-- The claim loop of the confirm flow (app.py 661-666): claim each selected
seat against the one `fresh_seats` snapshot taken before the loop, threading
the store through the writes, and collect succeeded and failed seat ids. -/
def claimAll (selected : List String) (name phone : String) (fresh_seats : List SeatRec)
    (store : List SeatRow) : List String × List String × List SeatRow :=
  match selected with
  | [] => ([], [], store)
  | seat_id :: rest =>
    match update_seat_atomic seat_id name phone fresh_seats store with
    | (ok, store1) =>
      match claimAll rest name phone fresh_seats store1 with
      | (succ, failed, store2) =>
        if ok then (seat_id :: succ, failed, store2)
        else (succ, seat_id :: failed, store2)

/-- Outcome of the confirm flow. -/
inductive ConfirmOutcome where
  | quotaExceeded : ConfirmOutcome
  | bookingFailed : ConfirmOutcome
  | booked : List String → List String → Int → ConfirmOutcome
deriving DecidableEq

/-- app.py 643-690, the confirm flow: re-read the whitelist row fresh (its
`allowed`/`used` values are the arguments), abort with the quota-exceeded
error when more seats are selected than remain, otherwise claim each
selected seat against a fresh seat snapshot; when nothing succeeded the
booking fails, else `TicketsUsed` is rewritten to
`min(allowed, used + len(success_list))`. -/
def confirm_flow (selected : List String) (name phone : String) (allowed used : Int)
    (unlimited : Bool) (store : List SeatRow) : ConfirmOutcome × List SeatRow :=
  let fresh_remaining : Int := if unlimited then 10 ^ 9 else allowed - used
  if (selected.length : Int) > fresh_remaining then (.quotaExceeded, store)
  else
    match claimAll selected name phone (get_seats store) store with
    | (success_list, failed_list, store1) =>
      if success_list = [] then (.bookingFailed, store1)
      else (.booked success_list failed_list (min allowed (used + success_list.length)), store1)

/-- The `enumerate(rows, start=2)` scan of `get_user_reserved_seats_global`
(app.py 213-224, and its local twins at 422-428 and 710-716): collect
`(sheet_row, SeatID.strip())` for every row whose trimmed `ReservedBy`
equals the trimmed holder name. -/
def userReservedAux (name : String) : Nat → List SeatRow → List (Nat × String)
  | _, [] => []
  | i, r :: rest =>
    if pyStrip r.reservedBy = pyStrip name then
      (i, pyStrip r.seatID) :: userReservedAux name (i + 1) rest
    else userReservedAux name (i + 1) rest

/-- app.py 213-224, `get_user_reserved_seats_global`. -/
def get_user_reserved_seats (name : String) (store : List SeatRow) : List (Nat × String) :=
  userReservedAux name 2 store

/-- The cleared row written by the release batch update (columns E, F, G set
to "available", "", ""). -/
def clearSeat (r : SeatRow) : SeatRow :=
  ⟨r.seatID, "available", "", ""⟩

/-- app.py 226-246, `release_all_user_seats_global` (identical in behaviour
to the local `release_all_user_seats` twins at 430-445 and 718-733): clear
every row matched by `get_user_reserved_seats` with one batch update and
return the freed seat ids.  The batch targets exactly the matched rows, so
on the store it is the row-wise conditional update written here. -/
def release_all_user_seats (name : String) (store : List SeatRow) :
    List String × List SeatRow :=
  let reserved := get_user_reserved_seats name store
  let freed := reserved.map (fun pr => pr.2)
  let store1 := store.map (fun r => if pyStrip r.reservedBy = pyStrip name then clearSeat r else r)
  (freed, store1)

/-- The Change-Seats action (app.py 248-296 and the after-confirm buttons at
749-756 and 779-785): release every seat held under the buyer's name and
rewrite `TicketsUsed` to `max(0, used - len(freed))`, where `used` is the
freshly re-read whitelist value.  In `change_seats_action` the release runs
twice, but both calls read the same cached pre-release snapshot, so together
they clear the matched rows once and count each freed seat once — the same
result as the single release modelled here. -/
def change_seats_action (name : String) (used : Int) (store : List SeatRow) :
    List SeatRow × Int :=
  match release_all_user_seats name store with
  | (freed, store1) => (store1, max 0 (used - freed.length))

/-- A data row of the `Whitelist` worksheet, with the columns `find_whitelist_entry`
reads through its header map (`name`, `receiptno`, `ticketsallowed`,
`ticketsused`, `contact`); all cell values are strings. -/
structure WLRow where
  name : String
  receiptNo : String
  ticketsAllowed : String
  ticketsUsed : String
  contact : String
deriving DecidableEq

/-- The entry dictionary built by `find_whitelist_entry` (app.py 173-181). -/
structure WLEntry where
  name : String
  receiptNo : String
  ticketsAllowed : Int
  ticketsUsed : Int
  contact : String
  unlimited : Bool
  groupRows : List Nat
deriving DecidableEq

/-- Enumerate whitelist rows with their sheet row numbers (data starts at 2). -/
def wlEnumFrom : Nat → List WLRow → List (Nat × WLRow)
  | _, [] => []
  | i, r :: rest => (i, r) :: wlEnumFrom (i + 1) rest

/-- The sibling-group comprehension of app.py 164-167: every row whose
trimmed name cell equals the matched row's raw name cell, with sheet row
numbers. -/
def group_rows_of (rows : List WLRow) (row_name_raw : String) : List (Nat × WLRow) :=
  (wlEnumFrom 2 rows).filter (fun pr => pyStrip pr.2.name = row_name_raw)

/-- Modelled from the spec's words (§4.1: the sibling group is "every row
whose raw (unnormalized, untrimmed-split) name field equals the matched
row's name field exactly"); stated only to compare with the implementation's
`group_rows_of`, which trims the candidate side. -/
def spec_sibling_group_rows (rows : List WLRow) (matched_name_raw : String) : List Nat :=
  ((wlEnumFrom 2 rows).filter (fun pr => pr.2.name = matched_name_raw)).map (fun pr => pr.1)

/-- The quota sums of app.py 170-171: parse each cell with
`int(str(cell).strip() or "0")` and add; a `ValueError` aborts the whole
lookup, modelled as `Except.error`. -/
def sumParsed : List String → Except String Int
  | [] => .ok 0
  | c :: rest =>
    match parse_ticket_field c with
    | none => .error "ValueError"
    | some v => (sumParsed rest).map (fun t => v + t)

/-- The row loop of `find_whitelist_entry` (app.py 156-183): a row matches
when the normalized input name occurs inside one of the row's `/`-separated
normalized candidate names and the trimmed receipts are equal; on the first
match, aggregate the quota over the sibling group and build the entry. -/
def findWLAux (allRows : List WLRow) (want_name want_rcp : String) :
    Nat → List WLRow → Except String (Option (Nat × WLEntry))
  | _, [] => .ok none
  | i, row :: rest =>
    let row_names := (pySplitSlash row.name).map normalize_name
    let r_rcp := pyStrip row.receiptNo
    if (row_names.any (fun rn => strContains rn want_name)) && (r_rcp == want_rcp) then
      let group := group_rows_of allRows row.name
      match sumParsed (group.map (fun pr => pr.2.ticketsAllowed)) with
      | .error e => .error e
      | .ok total_allowed =>
        match sumParsed (group.map (fun pr => pr.2.ticketsUsed)) with
        | .error e => .error e
        | .ok total_used =>
          .ok (some (i, ⟨row.name, want_rcp, total_allowed, total_used, row.contact,
            false, group.map (fun pr => pr.1)⟩))
    else findWLAux allRows want_name want_rcp (i + 1) rest

/-- app.py 143-183, `find_whitelist_entry`: returns the matched sheet row
number and the aggregated entry, `none` when no row matches, and an error
when a quota cell fails to parse. -/
def find_whitelist_entry (name receipt : String) (rows : List WLRow) :
    Except String (Option (Nat × WLEntry)) :=
  findWLAux rows (normalize_name name) (pyStrip receipt) 2 rows

/-- A quota write: either the confirm-flow commit (app.py 678,
`new_used = min(allowed, used + len(success_list))`) or the release refund
(app.py 266 and 755, `new_used = max(0, used - len(freed))`).  The operand
is a seat count, hence a natural number. -/
inductive QuotaOp where
  | commit : Nat → QuotaOp
  | release : Nat → QuotaOp

/-- Apply one quota write to the stored `TicketsUsed` value. -/
def applyQuotaOp (allowed : Int) (used : Int) : QuotaOp → Int
  | .commit n => min allowed (used + n)
  | .release n => max 0 (used - n)

/-- Run a sequence of quota writes against one whitelist row. -/
def runQuotaOps (allowed : Int) (used : Int) (ops : List QuotaOp) : Int :=
  ops.foldl (applyQuotaOp allowed) used

/-- Demo store for the C1 counterexample: a seat with a holder name but no
contact. -/
def c1Store : List SeatRow :=
  [⟨"A1", "", "Alice", ""⟩]

/-- Demo store for the C1 witness. -/
def c1WitnessStore : List SeatRow :=
  [⟨"A1", "", "", ""⟩, ⟨"A2", "pending", "Bob", "0123"⟩]

/-- Scenario-A whitelist rows (C2). -/
def c2Rows : List WLRow :=
  [⟨"Tan Mei/Tan Wei", "SR-1001", "4", "1", "0123"⟩,
   ⟨"Tan Mei/Tan Wei", "SR-1002", "2", "0", "0456"⟩]

/-- The entry Scenario A produces for the input ("tan mei", "SR-1001"). -/
def c2Entry : WLEntry :=
  ⟨"Tan Mei/Tan Wei", "SR-1001", 6, 1, "0123", false, [2, 3]⟩

/-- Whitelist rows for the C6 counterexample: two rows whose raw name cells
differ only by surrounding whitespace. -/
def c6Rows : List WLRow :=
  [⟨"Alice", "R-1", "1", "0", "0123"⟩,
   ⟨" Alice ", "R-2", "1", "0", "0456"⟩]

/-- The entry the resolver builds for ("alice", "R-1") over `c6Rows`. -/
def c6Entry : WLEntry :=
  ⟨"Alice", "R-1", 2, 0, "0123", false, [2, 3]⟩

/-- Whitelist row with a non-numeric quota cell (C7). -/
def c7Rows : List WLRow :=
  [⟨"Alice", "R-1", "abc", "0", "0123"⟩]

/-- Demo store for C5 and C10 witnesses: one free seat. -/
def c5Store : List SeatRow :=
  [⟨"A1", "", "", ""⟩]

/-- The store after Alice claims seat A1 in `c5Store`. -/
def c5StoreAfterA : List SeatRow :=
  [⟨"A1", "reserved", "Alice", "0123"⟩]

/-- The store after a holder whose name is the single space " " (empty once
trimmed) and whose contact is empty claims seat A1 in `c5Store`. -/
def c5BlankHolderStore : List SeatRow :=
  [⟨"A1", "reserved", " ", ""⟩]

/-- The store after Bob claims seat A1 in `c5BlankHolderStore`. -/
def c5BobStore : List SeatRow :=
  [⟨"A1", "reserved", "Bob", "0456"⟩]

/-- Demo store for the C8 counterexample: one seat with an empty ReservedBy
cell. -/
def c8Store : List SeatRow :=
  [⟨"A1", "", "", ""⟩]

/-- Demo store for the C8 witness. -/
def c8WitnessStore : List SeatRow :=
  [⟨"A1", "reserved", "Alice", "0123"⟩, ⟨"A2", "", "", ""⟩]

/-- Demo store for the C9 counterexample: the seat's ReservedBy cell carries
a trailing space, so it is not exactly equal to the buyer's name. -/
def c9Store : List SeatRow :=
  [⟨"A1", "reserved", "Alice ", "0123"⟩]

/-- Seat id is never changed by the get_seats status recomputation. -/
theorem mkSeatRec_seatID (r : SeatRow) (i : Nat) : (mkSeatRec r i).seatID = r.seatID := by
  simp only [mkSeatRec]
  split_ifs <;> rfl

/-- Sheet row recorded by the get_seats loop. -/
theorem mkSeatRec_sheetRow (r : SeatRow) (i : Nat) : (mkSeatRec r i).sheetRow = i := by
  simp only [mkSeatRec]
  split_ifs <;> rfl

/-- Holder name is never changed by the get_seats status recomputation. -/
theorem mkSeatRec_reservedBy (r : SeatRow) (i : Nat) : (mkSeatRec r i).reservedBy = r.reservedBy := by
  simp only [mkSeatRec]
  split_ifs <;> rfl

/-- Holder contact is never changed by the get_seats status recomputation. -/
theorem mkSeatRec_phoneNo (r : SeatRow) (i : Nat) : (mkSeatRec r i).phoneNo = r.phoneNo := by
  simp only [mkSeatRec]
  split_ifs <;> rfl

/-- Every record produced by the get_seats loop comes from some store row. -/
theorem mem_seatsToRecs {rec : SeatRec} :
    ∀ {i : Nat} {l : List SeatRow}, rec ∈ seatsToRecs i l →
      ∃ r j, r ∈ l ∧ rec = mkSeatRec r j := by
  intro i l
  induction l generalizing i with
  | nil => intro h; simp [seatsToRecs] at h
  | cons r rest ih =>
    intro h
    simp only [seatsToRecs, List.mem_cons] at h
    rcases h with h | h
    · exact ⟨r, i, List.mem_cons_self r rest, h⟩
    · obtain ⟨r', j, hmem, heq⟩ := ih h
      exact ⟨r', j, List.mem_cons_of_mem _ hmem, heq⟩

/-- C1, amended: for every seat record produced by the seat-listing
operation, the recomputed effective status (read the way every consumer
reads it, trimmed and lowercased) is "reserved" iff at least one of the
reserved_by and reserved_contact fields is non-empty after trimming, and is
"available" iff both are empty — independent of the stored status literal.
The original claim required both fields non-empty; `c1_counterexample`
refutes that. -/
theorem c1_status_recomputed (store : List SeatRow) (rec : SeatRec)
    (h : rec ∈ get_seats store) :
    (pyLower (pyStrip rec.status) = "reserved" ↔
      (pyStrip rec.reservedBy ≠ "" ∨ pyStrip rec.phoneNo ≠ "")) ∧
    (pyLower (pyStrip rec.status) = "available" ↔
      (pyStrip rec.reservedBy = "" ∧ pyStrip rec.phoneNo = "")) := by
  obtain ⟨r, j, -, rfl⟩ := mem_seatsToRecs h
  simp only [mkSeatRec]
  split_ifs with hempty hnres
  · dsimp only
    have hav : pyLower (pyStrip "available") = "available" := by decide
    rw [hav]
    exact ⟨⟨fun hx => absurd hx (by decide),
            fun hx => absurd hempty (by rcases hx with hx | hx <;> simp [hx])⟩,
           ⟨fun _ => hempty, fun _ => rfl⟩⟩
  · dsimp only
    have hres : pyLower (pyStrip "reserved") = "reserved" := by decide
    rw [hres]
    exact ⟨⟨fun _ => not_and_or.mp hempty, fun _ => rfl⟩,
           ⟨fun hx => absurd hx (by decide), fun hx => absurd hx hempty⟩⟩
  · dsimp only
    have hst : pyLower (pyStrip r.status) = "reserved" := not_ne_iff.mp hnres
    exact ⟨⟨fun _ => not_and_or.mp hempty, fun _ => hst⟩,
           ⟨fun hx => absurd (hst.symm.trans hx) (by decide), fun hx => absurd hx hempty⟩⟩

/-- C1, counterexample: in a store holding one seat with a holder name but
an empty contact, the recomputed status is "reserved", so "reserved iff both
holder fields are non-empty" fails on the code. -/
theorem c1_counterexample :
    ¬ (∀ rec ∈ get_seats c1Store,
        (pyLower (pyStrip rec.status) = "reserved" ↔
          (pyStrip rec.reservedBy ≠ "" ∧ pyStrip rec.phoneNo ≠ ""))) := by
  decide

/-- C1, witness: the amended theorem applied to a concrete store. -/
theorem c1_status_recomputed_witness :
    (pyLower (pyStrip (SeatRec.status ⟨"A1", "available", "", "", 2⟩)) = "reserved" ↔
      (pyStrip (SeatRec.reservedBy ⟨"A1", "available", "", "", 2⟩) ≠ "" ∨
       pyStrip (SeatRec.phoneNo ⟨"A1", "available", "", "", 2⟩) ≠ "")) ∧
    (pyLower (pyStrip (SeatRec.status ⟨"A1", "available", "", "", 2⟩)) = "available" ↔
      (pyStrip (SeatRec.reservedBy ⟨"A1", "available", "", "", 2⟩) = "" ∧
       pyStrip (SeatRec.phoneNo ⟨"A1", "available", "", "", 2⟩) = "")) :=
  c1_status_recomputed c1WitnessStore ⟨"A1", "available", "", "", 2⟩ (by decide)

/-- C2, counterexample: with exactly the Scenario-A whitelist rows, the
input ("mei tan", "SR-1001") does not resolve at all — "meitan" is not a
substring of either normalized candidate "tanmei" or "tanwei", and the
matching rule is substring containment, which is order-sensitive. -/
theorem c2_counterexample :
    find_whitelist_entry "mei tan" "SR-1001" c2Rows = .ok none := rfl

/-- C2, amended: same rows and receipt, but with the input name written in
the row's order, ("tan mei", "SR-1001") resolves to the first row and the
sibling aggregation gives total_allowed = 6, total_used = 1, hence
remaining = 6 - 1 = 5.  ("mei tan" itself fails; see `c2_counterexample`.) -/
theorem c2_scenario_a :
    find_whitelist_entry "tan mei" "SR-1001" c2Rows = .ok (some (2, c2Entry)) ∧
    c2Entry.ticketsAllowed = 6 ∧ c2Entry.ticketsUsed = 1 ∧
    c2Entry.ticketsAllowed - c2Entry.ticketsUsed = 5 :=
  ⟨rfl, rfl, rfl, rfl⟩

/-- C3: both quota writes clamp — the confirm commit writes
`min(allowed, used + n)` and the release writes `max(0, used - n)` — so
`0 ≤ tickets_used ≤ tickets_allowed`, once true, is preserved by every
sequence of commit and release operations, however adversarially repeated. -/
theorem c3_quota_invariant (allowed used : Int) (ops : List QuotaOp)
    (h0 : 0 ≤ used) (h1 : used ≤ allowed) :
    0 ≤ runQuotaOps allowed used ops ∧ runQuotaOps allowed used ops ≤ allowed := by
  induction ops generalizing used with
  | nil => exact ⟨h0, h1⟩
  | cons op rest ih =>
    have hstep : 0 ≤ applyQuotaOp allowed used op ∧ applyQuotaOp allowed used op ≤ allowed := by
      rcases op with n | n <;> simp only [applyQuotaOp] <;> constructor <;> omega
    exact ih (applyQuotaOp allowed used op) hstep.1 hstep.2

/-- C3, witness: the invariant holds after a concrete adversarial sequence
(overshooting commit, overshooting release, another overshooting commit). -/
theorem c3_quota_invariant_witness :
    0 ≤ runQuotaOps 5 2 [.commit 4, .release 10, .commit 99] ∧
    runQuotaOps 5 2 [.commit 4, .release 10, .commit 99] ≤ 5 :=
  c3_quota_invariant 5 2 [.commit 4, .release 10, .commit 99] (by decide) (by decide)

/-- C4: when the buyer is not in unlimited mode and the selection is larger
than the freshly re-read remaining quota, the confirm flow aborts with the
quota-exceeded outcome and the seat store is returned unchanged — the abort
happens before any claim is attempted, so no ledger write occurs. -/
theorem c4_quota_precheck (selected : List String) (name phone : String)
    (allowed used : Int) (store : List SeatRow)
    (h : (selected.length : Int) > allowed - used) :
    confirm_flow selected name phone allowed used false store = (.quotaExceeded, store) := by
  simp only [confirm_flow, if_neg Bool.false_ne_true, Bool.false_eq_true, if_false]
  rw [if_pos h]

/-- C4, witness: remaining = 1 - 0 = 1, two seats selected, confirm aborts
with the store untouched. -/
theorem c4_quota_precheck_witness :
    confirm_flow ["A1", "A2"] "Alice" "0123" 1 0 false c5Store = (.quotaExceeded, c5Store) :=
  c4_quota_precheck ["A1", "A2"] "Alice" "0123" 1 0 c5Store (by decide)

/-- C7, counterexample: the quota-cell parse has no fallback for non-numeric
strings — `int("abc")` raises (modelled by `none`), and the exception
escapes `find_whitelist_entry`, so "parsing never raises on any string
input" fails on the code. -/
theorem c7_counterexample :
    parse_ticket_field "abc" = none ∧
    find_whitelist_entry "alice" "R-1" c7Rows = .error "ValueError" :=
  ⟨rfl, rfl⟩

/-- C7, amended: the fallback is only for emptiness — a cell that is empty
after trimming parses as 0; a non-numeric non-empty cell makes `int()`
raise `ValueError` (uncaught at the resolver and quota-refresh call sites,
caught with a session-state fallback only inside `change_seats_action`). -/
theorem c7_empty_fallback (s : String) (h : pyStrip s = "") :
    parse_ticket_field s = some 0 := by
  simp only [parse_ticket_field, h]
  decide

/-- C7, witness: a whitespace-only cell parses as 0. -/
theorem c7_empty_fallback_witness : parse_ticket_field "  " = some 0 :=
  c7_empty_fallback "  " (by decide)

/-- C10: claiming a seat id that does not occur in the fetched seat list
returns false and leaves the store exactly as it was — an unknown seat
identifier can never create or modify a reservation. -/
theorem c10_unknown_seat_noop (seat_id name phone : String) (fresh_seats : List SeatRec)
    (store : List SeatRow) (h : ∀ s ∈ fresh_seats, s.seatID ≠ seat_id) :
    update_seat_atomic seat_id name phone fresh_seats store = (false, store) := by
  have hfind : fresh_seats.find? (fun s => s.seatID == seat_id) = none := by
    refine List.find?_eq_none.mpr fun s hs => ?_
    simp [h s hs]
  simp [update_seat_atomic, hfind]

/-- C10, witness: claiming the unknown id "ZZ" against a one-seat store is a
rejected no-op. -/
theorem c10_unknown_seat_noop_witness :
    update_seat_atomic "ZZ" "Alice" "0123" (get_seats c5Store) c5Store = (false, c5Store) :=
  c10_unknown_seat_noop "ZZ" "Alice" "0123" (get_seats c5Store) c5Store (by decide)

/-- Loop-level form of the C6 amended statement: whenever the resolver loop
returns an entry, its sibling-group rows are exactly the sheet rows whose
trimmed name cell equals the matched entry's raw name cell. -/
theorem findWLAux_groupRows (allRows : List WLRow) (wn wr : String) :
    ∀ (l : List WLRow) (i j : Nat) (e : WLEntry),
      findWLAux allRows wn wr i l = .ok (some (j, e)) →
      e.groupRows = ((wlEnumFrom 2 allRows).filter
        (fun pr => pyStrip pr.2.name = e.name)).map (fun pr => pr.1) := by
  intro l
  induction l with
  | nil => intro i j e h; simp [findWLAux] at h
  | cons row rest ih =>
    intro i j e h
    simp only [findWLAux] at h
    split at h
    · split at h
      · cases h
      · split at h
        · cases h
        · simp only [Except.ok.injEq, Option.some.injEq, Prod.mk.injEq] at h
          obtain ⟨-, he⟩ := h
          subst he
          rfl
    · exact ih (i + 1) j e h

/-- C6, amended: the sibling group the resolver aggregates over consists of
exactly those rows whose TRIMMED name field equals the matched row's raw
name field — the implementation strips the candidate side of the comparison
(`str(r[idx_name - 1]).strip() == row_name_raw`), so it is not raw exact
equality; `c6_counterexample` shows the difference. -/
theorem c6_sibling_group (rows : List WLRow) (name receipt : String) (j : Nat) (e : WLEntry)
    (h : find_whitelist_entry name receipt rows = .ok (some (j, e))) :
    e.groupRows = ((wlEnumFrom 2 rows).filter
      (fun pr => pyStrip pr.2.name = e.name)).map (fun pr => pr.1) :=
  findWLAux_groupRows rows (normalize_name name) (pyStrip receipt) rows 2 j e h

/-- C6, counterexample: with a second row whose raw name " Alice " differs
from the matched row's raw name "Alice" only by surrounding whitespace, the
resolver still pools it into the sibling group (rows [2, 3]), while exact
raw-name equality as the claim states it would give [2] only. -/
theorem c6_counterexample :
    find_whitelist_entry "alice" "R-1" c6Rows = .ok (some (2, c6Entry)) ∧
    c6Entry.groupRows ≠ spec_sibling_group_rows c6Rows c6Entry.name :=
  ⟨rfl, by decide⟩

/-- C6, witness: the amended theorem applied to the Scenario-A rows. -/
theorem c6_sibling_group_witness :
    c2Entry.groupRows = ((wlEnumFrom 2 c2Rows).filter
      (fun pr => pyStrip pr.2.name = c2Entry.name)).map (fun pr => pr.1) :=
  c6_sibling_group c2Rows "tan mei" "SR-1001" 2 c2Entry rfl

/-- After a release, no row of the store matches a holder whose trimmed name
is non-empty: the scan over the post-release store finds nothing. -/
theorem userReservedAux_cleared (name : String) (h : pyStrip name ≠ "") :
    ∀ (store : List SeatRow) (i : Nat),
      userReservedAux name i (store.map
        (fun r => if pyStrip r.reservedBy = pyStrip name then clearSeat r else r)) = [] := by
  intro store
  induction store with
  | nil => intro i; rfl
  | cons r rest ih =>
    intro i
    simp only [List.map_cons]
    by_cases hm : pyStrip r.reservedBy = pyStrip name
    · rw [if_pos hm]
      simp only [userReservedAux, clearSeat]
      rw [if_neg fun hx => h hx.symm]
      exact ih (i + 1)
    · rw [if_neg hm]
      simp only [userReservedAux]
      rw [if_neg hm]
      exact ih (i + 1)

/-- C8, amended: for any holder whose name is non-empty after trimming,
releasing all their seats twice in a row frees nothing the second time —
the first call cleared every matching seat.  For the degenerate empty
holder name the code is NOT idempotent (`c8_counterexample`): seats with an
empty ReservedBy cell match the empty name again after being "cleared". -/
theorem c8_release_all_idempotent (name : String) (store : List SeatRow)
    (h : pyStrip name ≠ "") :
    (release_all_user_seats name (release_all_user_seats name store).2).1 = [] := by
  simp only [release_all_user_seats, get_user_reserved_seats]
  rw [userReservedAux_cleared name h store 2]
  rfl

/-- C8, counterexample: with holder name "" and a store holding one seat
whose ReservedBy cell is empty, the second release_all still returns the
seat as freed — the claim's universal idempotence fails on the code. -/
theorem c8_counterexample :
    (release_all_user_seats "" (release_all_user_seats "" c8Store).2).1 = ["A1"] ∧
    (["A1"] : List String) ≠ [] :=
  ⟨rfl, by decide⟩

/-- C8, witness: the amended theorem applied to a concrete holder and store. -/
theorem c8_release_all_idempotent_witness :
    (release_all_user_seats "Alice" (release_all_user_seats "Alice" c8WitnessStore).2).1 = [] :=
  c8_release_all_idempotent "Alice" c8WitnessStore (by decide)

/-- The number of seats the release scan collects equals the number of store
rows whose trimmed ReservedBy equals the trimmed holder name. -/
theorem userReservedAux_length (name : String) :
    ∀ (store : List SeatRow) (i : Nat),
      (userReservedAux name i store).length =
        store.countP (fun r => pyStrip r.reservedBy == pyStrip name) := by
  intro store
  induction store with
  | nil => intro i; rfl
  | cons r rest ih =>
    intro i
    simp only [userReservedAux, List.countP_cons]
    by_cases hm : pyStrip r.reservedBy = pyStrip name
    · rw [if_pos hm]
      simp [hm, ih (i + 1)]
    · rw [if_neg hm]
      simp [hm, ih (i + 1)]

/-- C9, amended: the ChangeSeats action clears status, reserved_by and
reserved_contact on every seat whose TRIMMED reserved_by equals the buyer's
TRIMMED name (leaving all other seats untouched), and rewrites tickets_used
to `max(0, used - k)` where k is exactly the number of such seats.  The
match is trimmed equality, not the exact string equality the claim states;
`c9_counterexample` shows the difference. -/
theorem c9_change_seats (name : String) (used : Int) (store : List SeatRow) :
    (change_seats_action name used store).1 =
      store.map (fun r => if pyStrip r.reservedBy = pyStrip name then clearSeat r else r) ∧
    (change_seats_action name used store).2 =
      max 0 (used - (store.countP (fun r => pyStrip r.reservedBy == pyStrip name) : Int)) := by
  constructor
  · rfl
  · simp only [change_seats_action, release_all_user_seats, get_user_reserved_seats,
      List.length_map]
    rw [userReservedAux_length name store 2]

/-- C9, counterexample: the buyer is "Alice" but the seat's ReservedBy cell
is "Alice " (trailing space) — not exactly equal.  The code still clears the
seat and decrements tickets_used from 1 to 0, whereas under the claim's
exact-match rule nothing would be released. -/
theorem c9_counterexample :
    change_seats_action "Alice" 1 c9Store = ([⟨"A1", "available", "", ""⟩], 0) ∧
    SeatRow.reservedBy ⟨"A1", "reserved", "Alice ", "0123"⟩ ≠ "Alice" :=
  ⟨rfl, by decide⟩

/-- Row numbers produced by the get_seats loop never go below the start
index. -/
theorem seatsToRecs_row_ge {rec : SeatRec} :
    ∀ {i : Nat} {l : List SeatRow}, rec ∈ seatsToRecs i l → i ≤ rec.sheetRow := by
  intro i l
  induction l generalizing i with
  | nil => intro h; simp [seatsToRecs] at h
  | cons r rest ih =>
    intro h
    simp only [seatsToRecs, List.mem_cons] at h
    rcases h with h | h
    · subst h; simp [mkSeatRec_sheetRow]
    · exact Nat.le_of_succ_le (ih h)

/-- Writing one row further down commutes with peeling the head off the
store. -/
theorem writeSeatAt_cons_succ (a : SeatRow) (l : List SeatRow) (i : Nat) (n p : String) :
    writeSeatAt (a :: l) (i + 1) n p = a :: writeSeatAt l i n p := by
  simp only [writeSeatAt, List.get?_cons_succ]
  cases hget : l.get? i with
  | none => rfl
  | some r => simp [List.set_cons_succ]

/-- When the head seat does not carry the requested id, a claim acts on the
tail store (enumerated one row further down) and keeps the head. -/
theorem claimAux_cons_ne {r : SeatRow} {seat_id : String} (hid : r.seatID ≠ seat_id)
    (n p : String) (start : Nat) (rest : List SeatRow) :
    claimAux seat_id n p start (r :: rest) =
      ((claimAux seat_id n p (start + 1) rest).1,
       r :: (claimAux seat_id n p (start + 1) rest).2) := by
  simp only [claimAux, seatsToRecs]
  rw [List.find?_cons_of_neg _ (by simp [mkSeatRec_seatID, hid])]
  cases hfind : (seatsToRecs (start + 1) rest).find? (fun s => s.seatID == seat_id) with
  | none => rfl
  | some seat =>
    have hge : start + 1 ≤ seat.sheetRow :=
      seatsToRecs_row_ge (List.mem_of_find?_eq_some hfind)
    have hsub : seat.sheetRow - start = (seat.sheetRow - (start + 1)) + 1 := by omega
    dsimp only
    rw [hsub, writeSeatAt_cons_succ]
    by_cases hC : pyLower (pyStrip seat.status) = "" ∨ pyLower (pyStrip seat.status) = "available"
    · rw [if_pos hC, if_pos hC]
    · rw [if_neg hC, if_neg hC]

/-- Generalised claim exclusivity: if a claim for `seat_id` by holder A (with
a non-empty trimmed name) succeeds, then a second claim for the same id
against a fresh read of the written store fails, changes nothing, and the
freshly read seat record still carries exactly A's holder fields. -/
theorem claimAux_exclusive (seat_id nA pA nB pB : String) (hA : pyStrip nA ≠ "") :
    ∀ (store : List SeatRow) (start : Nat) (store1 : List SeatRow),
      claimAux seat_id nA pA start store = (true, store1) →
      claimAux seat_id nB pB start store1 = (false, store1) ∧
      ∃ rec, (seatsToRecs start store1).find? (fun s => s.seatID == seat_id) = some rec ∧
        rec.reservedBy = nA ∧ rec.phoneNo = pA := by
  intro store
  induction store with
  | nil => intro start store1 h; simp [claimAux, seatsToRecs] at h
  | cons r rest ih =>
    intro start store1 h
    by_cases hid : r.seatID = seat_id
    · have hfindA : (seatsToRecs start (r :: rest)).find? (fun s => s.seatID == seat_id)
          = some (mkSeatRec r start) := by
        simp only [seatsToRecs]
        exact List.find?_cons_of_pos _ (by simp [mkSeatRec_seatID, hid])
      simp only [claimAux] at h
      rw [hfindA] at h
      dsimp only at h
      by_cases hC : pyLower (pyStrip (mkSeatRec r start).status) = "" ∨
          pyLower (pyStrip (mkSeatRec r start).status) = "available"
      · rw [if_pos hC, mkSeatRec_sheetRow, Nat.sub_self] at h
        simp only [writeSeatAt, List.get?_cons_zero, List.set_cons_zero,
          Prod.mk.injEq, true_and] at h
        subst h
        have hrec : mkSeatRec ⟨r.seatID, "reserved", nA, pA⟩ start
            = ⟨r.seatID, "reserved", nA, pA, start⟩ := by
          simp only [mkSeatRec]
          rw [if_neg (fun hx => hA hx.1)]
          rw [if_neg (by decide : ¬ (pyLower (pyStrip "reserved") ≠ "reserved"))]
        have hfindB : (seatsToRecs start ((⟨r.seatID, "reserved", nA, pA⟩ : SeatRow) :: rest)).find?
            (fun s => s.seatID == seat_id) = some ⟨r.seatID, "reserved", nA, pA, start⟩ := by
          simp only [seatsToRecs, hrec]
          exact List.find?_cons_of_pos _ (by simp [hid])
        refine ⟨?_, ⟨r.seatID, "reserved", nA, pA, start⟩, hfindB, rfl, rfl⟩
        simp only [claimAux]
        rw [hfindB]
        dsimp only
        rw [if_neg (by decide : ¬ (pyLower (pyStrip "reserved") = "" ∨
          pyLower (pyStrip "reserved") = "available"))]
      · rw [if_neg hC] at h
        simp at h
    · rcases hqe : claimAux seat_id nA pA (start + 1) rest with ⟨a, b⟩
      rw [claimAux_cons_ne hid nA pA start rest, hqe] at h
      simp only [Prod.mk.injEq] at h
      obtain ⟨ha, hs1⟩ := h
      subst ha
      subst hs1
      obtain ⟨hB, rec, hfind, hby, hph⟩ := ih (start + 1) b hqe
      constructor
      · rw [claimAux_cons_ne hid nB pB start b, hB]
      · refine ⟨rec, ?_, hby, hph⟩
        simp only [seatsToRecs]
        rw [List.find?_cons_of_neg _ (by simp [mkSeatRec_seatID, hid])]
        exact hfind

/-- C5, amended: claim exclusivity holds for every holder A whose name is
non-empty after trimming.  If such a claim for a seat id succeeds, then a
second claim for the same seat id by a different holder B, made against a
fresh read with no intervening release, returns false with the store
unchanged, and the freshly read seat record still carries exactly A's
reserved_by and reserved_contact — never a mix of the two holders.  The
non-empty-name restriction is forced by `c5_counterexample`: a whitespace
holder's reservation is recomputed back to "available" on the next read,
and the second claim then succeeds and overwrites it. -/
theorem c5_claim_exclusivity (store store1 : List SeatRow)
    (seat_id nameA phoneA nameB phoneB : String)
    (hA : pyStrip nameA ≠ "") (_hdiff : nameB ≠ nameA)
    (h1 : update_seat_atomic seat_id nameA phoneA (get_seats store) store = (true, store1)) :
    update_seat_atomic seat_id nameB phoneB (get_seats store1) store1 = (false, store1) ∧
    ∃ rec, (get_seats store1).find? (fun s => s.seatID == seat_id) = some rec ∧
      rec.reservedBy = nameA ∧ rec.phoneNo = phoneA := by
  have heq : ∀ (n p : String) (st : List SeatRow),
      update_seat_atomic seat_id n p (get_seats st) st = claimAux seat_id n p 2 st :=
    fun n p st => rfl
  rw [heq] at h1
  obtain ⟨hB, rec, hf, hby, hph⟩ :=
    claimAux_exclusive seat_id nameA phoneA nameB phoneB hA store 2 store1 h1
  exact ⟨by rw [heq]; exact hB, rec, hf, hby, hph⟩

/-- C5, witness: Alice claims the free seat A1; Bob's subsequent claim for
A1 against a fresh read fails and the seat still carries Alice's fields. -/
theorem c5_claim_exclusivity_witness :
    update_seat_atomic "A1" "Bob" "0456" (get_seats c5StoreAfterA) c5StoreAfterA
      = (false, c5StoreAfterA) ∧
    ∃ rec, (get_seats c5StoreAfterA).find? (fun s => s.seatID == "A1") = some rec ∧
      rec.reservedBy = "Alice" ∧ rec.phoneNo = "0123" :=
  c5_claim_exclusivity c5Store c5StoreAfterA "A1" "Alice" "0123" "Bob" "0456"
    (by decide) (by decide) (by decide)

/-- C5, counterexample: the claim as stated fails for a holder whose name is
whitespace-only.  Holder A = (" ", "") successfully claims the free seat A1,
but both written holder fields are empty once trimmed, so the next fresh
read recomputes the seat to "available"; the second claim by the different
holder B = ("Bob", "0456") then SUCCEEDS (returns true, not the claimed
SeatTaken/false) and overwrites the seat with B's fields. -/
theorem c5_counterexample :
    update_seat_atomic "A1" " " "" (get_seats c5Store) c5Store
      = (true, c5BlankHolderStore) ∧
    update_seat_atomic "A1" "Bob" "0456" (get_seats c5BlankHolderStore) c5BlankHolderStore
      = (true, c5BobStore) ∧
    ("Bob" : String) ≠ " " :=
  ⟨rfl, rfl, by decide⟩
